import Mathlib

/-!
Verification of the Transatel MCP adapter (mcp-https.py, auth.py).

The development shallowly embeds the response normalizers, the SIM lookup,
the network-attach tool handler and the token provider.  JSON values are
modelled by the inductive `Json`; Python dictionary/list/str operations that
the source uses (`dict.get`, `d[k]`, `x[:8]`, `x[0]`, iteration, `int(...)`,
truthiness, `==`) are modelled by explicit partial operations in the
`Except PyErr` monad, so that an escaping Python exception is an `error`
value.  `json.dumps` (default separators, `ensure_ascii=True`) is modelled by
`dumps`, and HTTP responses by their status code together with their parsed
JSON body; the raw body text is recovered as the canonical serialization of
the body.
-/

set_option maxHeartbeats 1000000

/-- A JSON value, as produced by parsing a response body. -/
inductive Json where
  | null
  | bool (b : Bool)
  | num (n : Int)
  | str (s : String)
  | arr (xs : List Json)
  | obj (kvs : List (String × Json))
deriving Repr

/-- A Python exception escaping from the embedded code. -/
inductive PyErr where
  | attributeError (msg : String)
  | keyError (key : String)
  | indexError (msg : String)
  | typeError (msg : String)
  | valueError (msg : String)
  | httpError (status : Nat)
  | runtimeError (msg : String)
deriving Repr

/-- Computations that may raise a Python exception. -/
abbrev Py (α : Type) := Except PyErr α

/-- Opening curly brace character. -/
def lcur : Char := Char.ofNat 123

/-- Closing curly brace character. -/
def rcur : Char := Char.ofNat 125

/-- Double quote character. -/
def dq : Char := Char.ofNat 34

/-- Backslash character. -/
def bs : Char := Char.ofNat 92

/-- Decimal digits of `n` (most significant first), with structural fuel. -/
def natDigitsAux : Nat → Nat → List Char
  | 0, _ => []
  | fuel + 1, n =>
    if n < 10 then [Nat.digitChar n]
    else natDigitsAux fuel (n / 10) ++ [Nat.digitChar (n % 10)]

/-- Decimal digits of a natural number, most significant first. -/
def natDigits (n : Nat) : List Char := natDigitsAux (n + 1) n

/-- Decimal rendering of an integer, as Python `repr` renders `int`. -/
def intRepr (n : Int) : List Char :=
  if n < 0 then '-' :: natDigits n.natAbs else natDigits n.natAbs

/-- Lowercase hexadecimal digit for `n % 16` (total, defaulting to `0`). -/
def hexChar : Nat → Char
  | 0 => '0' | 1 => '1' | 2 => '2' | 3 => '3' | 4 => '4' | 5 => '5' | 6 => '6' | 7 => '7'
  | 8 => '8' | 9 => '9' | 10 => 'a' | 11 => 'b' | 12 => 'c' | 13 => 'd' | 14 => 'e' | 15 => 'f'
  | _ + 16 => '0'

/-- Four lowercase hex digits of `n % 65536`, as in a JSON unicode escape. -/
def hex4 (n : Nat) : List Char :=
  [hexChar (n / 4096 % 16), hexChar (n / 256 % 16), hexChar (n / 16 % 16), hexChar (n % 16)]

/-- Escape one character the way `json.dumps` does with `ensure_ascii=True`:
printable ASCII except quote and backslash passes through, the named escapes
are used for the usual control characters, everything else becomes a unicode
escape (a surrogate pair beyond the basic plane). -/
def escChar (c : Char) : List Char :=
  if c = dq then [bs, dq]
  else if c = bs then [bs, bs]
  else if c = Char.ofNat 10 then [bs, 'n']
  else if c = Char.ofNat 13 then [bs, 'r']
  else if c = Char.ofNat 9 then [bs, 't']
  else if c = Char.ofNat 8 then [bs, 'b']
  else if c = Char.ofNat 12 then [bs, 'f']
  else if c.toNat < 32 then [bs, 'u'] ++ hex4 c.toNat
  else if c.toNat < 127 then [c]
  else if c.toNat < 65536 then [bs, 'u'] ++ hex4 c.toNat
  else
    [bs, 'u'] ++ hex4 (55296 + (c.toNat - 65536) / 1024) ++
      ([bs, 'u'] ++ hex4 (56320 + (c.toNat - 65536) % 1024))

/-- Escape every character of a string body. -/
def strEsc : List Char → List Char
  | [] => []
  | c :: r => escChar c ++ strEsc r

/-- The characters of the JSON literal for null. -/
def litNull : List Char := "null".data

/-- The characters of the JSON literal for true. -/
def litTrue : List Char := "true".data

/-- The characters of the JSON literal for false. -/
def litFalse : List Char := "false".data

mutual

/-- Model of `json.dumps` with its default separators. -/
def dumps : Json → List Char
  | .null => litNull
  | .bool true => litTrue
  | .bool false => litFalse
  | .num n => intRepr n
  | .str s => dq :: strEsc s.data ++ [dq]
  | .arr xs => '[' :: dumpsElems xs ++ [']']
  | .obj kvs => lcur :: dumpsMembers kvs ++ [rcur]

/-- Array elements of `dumps`, separated by a comma and a space. -/
def dumpsElems : List Json → List Char
  | [] => []
  | [x] => dumps x
  | x :: y :: r => dumps x ++ ',' :: ' ' :: dumpsElems (y :: r)

/-- Object members of `dumps`, rendered as quoted key, colon, space, value. -/
def dumpsMembers : List (String × Json) → List Char
  | [] => []
  | [(k, v)] => dq :: strEsc k.data ++ dq :: ':' :: ' ' :: dumps v
  | (k, v) :: m :: r =>
    (dq :: strEsc k.data ++ dq :: ':' :: ' ' :: dumps v) ++ ',' :: ' ' :: dumpsMembers (m :: r)

end

/-- Serialization of a JSON value to a string. -/
def dumpsStr (j : Json) : String := String.mk (dumps j)

/-- Field lookup on a JSON object (`none` on non-objects and missing keys). -/
def Json.get? : Json → String → Option Json
  | .obj kvs, k => kvs.lookup k
  | _, _ => none

/-- Python truthiness of a JSON value. -/
def Json.truthy : Json → Bool
  | .null => false
  | .bool b => b
  | .num n => n != 0
  | .str s => s != ""
  | .arr xs => !xs.isEmpty
  | .obj kvs => !kvs.isEmpty

/-- Python `d.get(k, default)`: raises `AttributeError` on non-dicts. -/
def pyGet (j : Json) (k : String) (d : Json) : Py Json :=
  match j with
  | .obj kvs => .ok ((kvs.lookup k).getD d)
  | _ => .error (.attributeError "object has no attribute get")

/-- Python `d[k]` with a string key: `KeyError` on a missing key,
`TypeError` when the value is not a dict. -/
def pyGetItem (j : Json) (k : String) : Py Json :=
  match j with
  | .obj kvs =>
    match kvs.lookup k with
    | some v => .ok v
    | none => .error (.keyError k)
  | _ => .error (.typeError "value is not subscriptable by a string")

/-- Python `x[0]`: first list element or first character of a string. -/
def pyIndex0 (j : Json) : Py Json :=
  match j with
  | .arr (x :: _) => .ok x
  | .arr [] => .error (.indexError "list index out of range")
  | .str s =>
    match s.data with
    | c :: _ => .ok (.str (String.mk [c]))
    | [] => .error (.indexError "string index out of range")
  | .obj _ => .error (.keyError "0")
  | _ => .error (.typeError "value is not subscriptable")

/-- Python `x[:n]` slicing of strings and lists. -/
def pySlice (j : Json) (n : Nat) : Py Json :=
  match j with
  | .str s => .ok (.str (String.mk (s.data.take n)))
  | .arr xs => .ok (.arr (xs.take n))
  | _ => .error (.typeError "value cannot be sliced")

/-- Python iteration `for x in j`: lists yield elements, strings yield
one-character strings, dicts yield their keys. -/
def pyIter (j : Json) : Py (List Json) :=
  match j with
  | .arr xs => .ok xs
  | .str s => .ok (s.data.map (fun c => .str (String.mk [c])))
  | .obj kvs => .ok (kvs.map (fun kv => .str kv.1))
  | _ => .error (.typeError "value is not iterable")

/-- Whitespace stripped by Python `int(...)` on strings. -/
def isPyWs (c : Char) : Bool :=
  c = ' ' || c = Char.ofNat 9 || c = Char.ofNat 10 || c = Char.ofNat 13 ||
    c = Char.ofNat 11 || c = Char.ofNat 12

/-- Value of a list of decimal digits. -/
def digitsToNat (ds : List Char) : Nat :=
  ds.foldl (fun a c => a * 10 + (c.toNat - 48)) 0

/-- Parse a nonempty all-digit character list, as the unsigned core of
Python `int(...)` applied to a string. -/
def parseIntDigits : List Char → Py Int
  | [] => .error (.valueError "invalid literal for int with base 10")
  | ds =>
    if ds.all Char.isDigit then .ok (Int.ofNat (digitsToNat ds))
    else .error (.valueError "invalid literal for int with base 10")

/-- Python `int(s)` on a string: strip whitespace, optional sign, digits. -/
def parseIntStr (s : String) : Py Int :=
  let cs := ((s.data.dropWhile isPyWs).reverse.dropWhile isPyWs).reverse
  match cs with
  | '-' :: rest => (parseIntDigits rest).map Int.neg
  | '+' :: rest => parseIntDigits rest
  | rest => parseIntDigits rest

/-- Python `int(x)` on a JSON value: integers pass through, booleans count
as 0 or 1, strings are parsed, everything else raises `TypeError`. -/
def pyToInt : Json → Py Int
  | .num n => .ok n
  | .bool b => .ok (if b then 1 else 0)
  | .str s => parseIntStr s
  | .null => .error (.typeError "int argument must not be NoneType")
  | .arr _ => .error (.typeError "int argument must not be a list")
  | .obj _ => .error (.typeError "int argument must not be a dict")

/-- Python `j == n` against an integer literal (never raises): only numbers
and booleans can compare equal to an integer. -/
def pyEqInt (j : Json) (n : Int) : Bool :=
  match j with
  | .num m => m == n
  | .bool b => (if b then (1 : Int) else 0) == n
  | _ => false

/-- Python `j == s` against a string literal (never raises). -/
def pyEqStr (j : Json) (s : String) : Bool :=
  match j with
  | .str t => t == s
  | _ => false

/-- An HTTP response, modelled by its status code and parsed JSON body. -/
structure Response where
  status : Nat
  body : Json

/-- Model of `response.text`: the canonical serialization of the body. -/
def Response.text (r : Response) : String := dumpsStr r.body

/-- Model of `response.json()` on a response whose body is valid JSON. -/
def Response.json (r : Response) : Json := r.body

/-- Left-to-right effectful map, as a Python list comprehension: the first
raised exception escapes. -/
def mapE (f : Json → Py Json) : List Json → Py (List Json)
  | [] => .ok []
  | x :: r => do
    let y ← f x
    let ys ← mapE f r
    pure (y :: ys)

/-!  Embedding of the source functions of `mcp-https.py` and `auth.py`. -/

/-- Lines 27 to 32 of `mcp-https.py`: scan the equipment entries for the
first one whose type field equals "IMEI", take the first 8 characters of its
value when that value is truthy (looking the value up with `d[k]`, so a
missing value key raises `KeyError`), and stop at the first match. -/
def find_imei_tac : List Json → Py Json
  | [] => .ok .null
  | equipment :: rest => do
    let t ← pyGet equipment "User-Equipment-Info-Type" .null
    if pyEqStr t "IMEI" then do
      let imei ← pyGetItem equipment "User-Equipment-Info-Value"
      if imei.truthy then pySlice imei 8 else pure .null
    else
      find_imei_tac rest

/-- Loop body of lines 25 to 41 of `mcp-https.py`: normalize one session. -/
def parse_session (session : Json) : Py Json := do
  let ps_info ← pyGet session "PS-Information" (.obj [])
  let uei ← pyGet ps_info "User-Equipment-Info" (.arr [])
  let equipments ← pyIter uei
  let tac ← find_imei_tac equipments
  let startTime ← pyGet session "startTime" .null
  let lastUpdateTime ← pyGet session "lastUpdateTime" .null
  let mccMnc ← pyGet ps_info "3GPP-GGSN-MCC-MNC" .null
  let apn ← pyGet ps_info "Called-Station-Id" .null
  let ratType ← pyGet ps_info "3GPP-RAT-Type" .null
  pure (.obj [("startTime", startTime), ("lastUpdateTime", lastUpdateTime),
    ("mcc-mnc", mccMnc), ("apn", apn), ("ratType", ratType), ("deviceTAC", tac)])

/-- Lines 19 to 43 of `mcp-https.py` (`helper_data_session`), before the
final `json.dumps`. -/
def helper_data_session_obj (response : Response) : Py Json :=
  if response.status == 404 then
    .ok (.obj [("status", .str "inactive"), ("detail", .str "No active data session")])
  else do
    let data := response.json
    let sessionsRaw ← pyGet data "sessions" (.arr [])
    let sessionList ← pyIter sessionsRaw
    let sessions ← mapE parse_session sessionList
    pure (.obj [("status", .str "active"), ("sessions", .arr sessions)])

/-- Lines 19 to 43 of `mcp-https.py`: the data-session normalizer. -/
def helper_data_session (response : Response) : Py String :=
  (helper_data_session_obj response).map dumpsStr

/-- Line 70 of `mcp-https.py`: the conditional expression
`session.get("imei", "")[:8] if session.get("imei") else None`. -/
def cdr_tac (session : Json) : Py Json := do
  let imeiTest ← pyGet session "imei" .null
  if imeiTest.truthy then do
    let imei ← pyGet session "imei" (.str "")
    pySlice imei 8
  else pure .null

/-- Loop body of lines 57 to 79 of `mcp-https.py`: normalize one CDR entry. -/
def parse_cdr_record (entry : Json) : Py Json := do
  let header ← pyGet entry "header" (.obj [])
  let body ← pyGet entry "body" (.obj [])
  let session ← pyGet body "dataSession" (.obj [])
  let usage ← pyGet session "usage" (.obj [])
  let eventDate ← pyGet header "eventDate" .null
  let apn ← pyGet session "apn" .null
  let originCountry ← pyGet session "originCountry" .null
  let mcc ← pyGet session "mcc" .null
  let mnc ← pyGet session "mnc" .null
  let ratType ← pyGet session "rat" .null
  let tac ← cdr_tac session
  let request1 ← pyGet session "request" (.obj [])
  let requestType ← pyGet request1 "requestType" .null
  let request2 ← pyGet session "request" (.obj [])
  let requestDate ← pyGet request2 "requestDate" .null
  let serviceOutcome ← pyGet session "serviceOutcome" .null
  let uplinkRaw ← pyGet usage "uplink" (.num 0)
  let uplink ← pyToInt uplinkRaw
  let downlinkRaw ← pyGet usage "downlink" (.num 0)
  let downlink ← pyToInt downlinkRaw
  let totalRaw ← pyGet usage "total" (.num 0)
  let total ← pyToInt totalRaw
  pure (.obj [("eventDate", eventDate), ("apn", apn), ("originCountry", originCountry),
    ("mcc", mcc), ("mnc", mnc), ("ratType", ratType), ("deviceTAC", tac),
    ("requestType", requestType), ("requestDate", requestDate),
    ("serviceOutcome", serviceOutcome),
    ("usage", .obj [("uplink", .num uplink), ("downlink", .num downlink),
      ("total", .num total)])])

/-- Lines 47 to 85 of `mcp-https.py` (`helper_cdr`), before `json.dumps`. -/
def helper_cdr_obj (response : Response) : Py Json :=
  if response.status != 200 then
    .ok (.obj [("error", .str ("API returned " ++ toString response.status)),
      ("detail", .str response.text)])
  else do
    let data := response.json
    let te ← pyGet data "totalElements" (.num 0)
    if pyEqInt te 0 then
      pure (.obj [("status", .str "inactive"), ("detail", .str "No CDR records found"),
        ("totalElements", .num 0)])
    else do
      let contentRaw ← pyGet data "content" (.arr [])
      let content ← pyIter contentRaw
      let records ← mapE parse_cdr_record content
      let teOut ← pyGet data "totalElements" .null
      pure (.obj [("status", .str "active"), ("totalElements", teOut),
        ("records", .arr records)])

/-- Lines 47 to 85 of `mcp-https.py`: the CDR normalizer. -/
def helper_cdr (response : Response) : Py String :=
  (helper_cdr_obj response).map dumpsStr

/-- Line 124 of `mcp-https.py`: the conditional expression
`imei[:8] if imei else None`. -/
def na_tac (imei : Json) : Py Json :=
  if imei.truthy then pySlice imei 8 else pure .null

/-- Lines 113 to 125 of `mcp-https.py`: per-event normalization used by the
network-attach normalizer. -/
def parse_event (event : Json) : Py Json := do
  let header ← pyGet event "header" (.obj [])
  let body ← pyGet event "body" (.obj [])
  let imei ← pyGet body "imei" (.str "")
  let eventDate ← pyGet header "eventDate" .null
  let eventType ← pyGet header "eventType" .null
  let mcc ← pyGet body "mcc" .null
  let mnc ← pyGet body "mnc" .null
  let operatorName ← pyGet body "operatorName" .null
  let country ← pyGet body "iso3" .null
  let tac ← na_tac imei
  pure (.obj [("eventDate", eventDate), ("eventType", eventType), ("mcc", mcc),
    ("mnc", mnc), ("operatorName", operatorName), ("country", country),
    ("deviceTAC", tac)])

/-- Lines 103 to 135 of `mcp-https.py` (`helper_network_attach`), before
`json.dumps`. -/
def helper_network_attach_obj (response : Response) (last_only : Bool) : Py Json :=
  if response.status != 200 then
    .ok (.obj [("error", .str ("API returned " ++ toString response.status)),
      ("detail", .str response.text)])
  else do
    let data := response.json
    let content ← pyGet data "content" (.arr [])
    if !content.truthy then
      pure (.obj [("status", .str "no_data"), ("detail", .str "No location history found")])
    else if last_only then do
      let first ← pyIndex0 content
      let ev ← parse_event first
      pure (.obj [("status", .str "ok"), ("lastAttach", ev)])
    else do
      let items ← pyIter content
      let records ← mapE parse_event items
      let te ← pyGet data "totalElements" (.num (Int.ofNat records.length))
      pure (.obj [("status", .str "ok"), ("totalElements", te),
        ("records", .arr records)])

/-- Lines 103 to 135 of `mcp-https.py`: the network-attach normalizer. -/
def helper_network_attach (response : Response) (last_only : Bool) : Py String :=
  (helper_network_attach_obj response last_only).map dumpsStr

/-- Lines 89 to 99 of `mcp-https.py`: `raise_for_status` raises on a 4xx or
5xx status, then the first entry of the `sims` list is taken and its
`simSerial` field returned; an empty (or falsy) `sims` raises `ValueError`
with the message "No SIM found for IMSI" followed by the identifier. -/
def get_sim_serial (response : Response) (imsi : String) : Py Json :=
  if 400 ≤ response.status ∧ response.status < 600 then
    .error (.httpError response.status)
  else do
    let sims ← pyGet response.json "sims" (.arr [])
    if !sims.truthy then
      .error (.valueError ("No SIM found for IMSI " ++ imsi))
    else do
      let first ← pyIndex0 sims
      pyGetItem first "simSerial"

/-- Lines 175 to 214 of `mcp-https.py`: the attach-history tool handler.
The SIM-search response and, for each possible serial, the attach-history
response are supplied as inputs; the `try ... except ValueError` of the
source converts a `ValueError` raised anywhere in the pipeline into the
serialized object with the single key `error`. -/
def get_network_attach (simResponse : Response) (attachResponseFor : Json → Response)
    (imsi : String) (last_only : Bool) : Py String :=
  let attempt : Py String := do
    let sim_serial ← get_sim_serial simResponse imsi
    helper_network_attach (attachResponseFor sim_serial) last_only
  match attempt with
  | .error (.valueError msg) => .ok (dumpsStr (.obj [("error", .str msg)]))
  | other => other

/-- Transport-level failure of one `requests.post` call: a connection error
or hitting the fixed timeout passed to the call. -/
inductive ReqErr where
  | connError
  | timedOut
deriving Repr

/-- The fixed timeout (in seconds) passed to the token request at line 20 of
`auth.py`. -/
def TOKEN_TIMEOUT_SECONDS : Nat := 10

/-- Lines 11 to 27 of `auth.py` (`gen_token`): one single POST attempt is
made (`attempts 0`); any `requests.RequestException` (connection error,
timeout, or the `HTTPError` from `raise_for_status` on a 4xx/5xx status) is
re-raised as `RuntimeError`; otherwise the `access_token` field of the
response body is returned via `d[k]` indexing. -/
def gen_token (attempts : Nat → Except ReqErr Response) : Py Json :=
  match attempts 0 with
  | .error _ => .error (.runtimeError "Failed to generate token")
  | .ok response =>
    if 400 ≤ response.status ∧ response.status < 600 then
      .error (.runtimeError "Failed to generate token")
    else
      pyGetItem response.json "access_token"

/-!  A grammar for JSON text, written from the JSON specification (RFC 8259,
with numbers restricted to integers, which is all `dumps` emits), used to
state that every serialized output is independently parseable. -/

/-- Characters a JSON string literal may contain unescaped; the serializer
under scrutiny only emits printable ASCII unescaped. -/
def jPlainChar (c : Char) : Bool :=
  (32 ≤ c.toNat && c.toNat < 127) && c != dq && c != bs

/-- Characters allowed after a backslash as a short escape. -/
def jEscCode (c : Char) : Bool :=
  c = dq || c = bs || c = '/' || c = 'b' || c = 'f' || c = 'n' || c = 'r' || c = 't'

/-- Hexadecimal digits, upper or lower case. -/
def isHexDigitChar (c : Char) : Bool :=
  c.isDigit || ('a' ≤ c && c ≤ 'f') || ('A' ≤ c && c ≤ 'F')

/-- A canonical integer literal has no leading zero (a lone zero aside). -/
def noLeadZero (ds : List Char) : Bool := ds == ['0'] || ds.head? != some '0'

/-- One lexical item inside a JSON string literal: an allowed plain
character, a short escape, or a unicode escape. -/
inductive StrItem : List Char → Prop where
  | plain (c : Char) : jPlainChar c = true → StrItem [c]
  | esc (c : Char) : jEscCode c = true → StrItem [bs, c]
  | hex (a b c d : Char) : isHexDigitChar a = true → isHexDigitChar b = true →
      isHexDigitChar c = true → isHexDigitChar d = true → StrItem [bs, 'u', a, b, c, d]

/-- The body of a JSON string literal: a concatenation of lexical items. -/
inductive StrBody : List Char → Prop where
  | nil : StrBody []
  | cons {i r : List Char} : StrItem i → StrBody r → StrBody (i ++ r)

mutual

/-- Valid JSON text for a single value (no surrounding whitespace, the
shape `json.dumps` emits with its default separators). -/
inductive JsonText : List Char → Prop where
  | jnull : JsonText litNull
  | jtrue : JsonText litTrue
  | jfalse : JsonText litFalse
  | jnumPos (ds : List Char) : ds ≠ [] → ds.all Char.isDigit = true →
      noLeadZero ds = true → JsonText ds
  | jnumNeg (ds : List Char) : ds ≠ [] → ds.all Char.isDigit = true →
      noLeadZero ds = true → JsonText ('-' :: ds)
  | jstr {b : List Char} : StrBody b → JsonText (dq :: b ++ [dq])
  | jarrNil : JsonText ['[', ']']
  | jarr {m : List Char} : ElemsText m → JsonText ('[' :: m ++ [']'])
  | jobjNil : JsonText [lcur, rcur]
  | jobj {m : List Char} : MembersText m → JsonText (lcur :: m ++ [rcur])

/-- One or more JSON values separated by a comma and a space. -/
inductive ElemsText : List Char → Prop where
  | one {v : List Char} : JsonText v → ElemsText v
  | cons {v r : List Char} : JsonText v → ElemsText r → ElemsText (v ++ ',' :: ' ' :: r)

/-- One or more object members (quoted key, colon, space, value) separated
by a comma and a space. -/
inductive MembersText : List Char → Prop where
  | one {k v : List Char} : StrBody k → JsonText v → MembersText (dq :: k ++ dq :: ':' :: ' ' :: v)
  | cons {k v r : List Char} : StrBody k → JsonText v → MembersText r →
      MembersText (dq :: k ++ dq :: ':' :: ' ' :: (v ++ ',' :: ' ' :: r))

end

/-!  Schema well-formedness predicates: sufficient, decidable conditions on a
parsed body under which the dynamic field accesses of the source cannot
raise.  They mirror the shapes the upstream API documents: objects where the
code calls `.get`, arrays where it iterates, string IMEI values, and
integer-coercible usage counters. -/

/-- The value is a JSON object. -/
def isObjB : Json → Bool
  | .obj _ => true
  | _ => false

/-- The value is a JSON string. -/
def isStrB : Json → Bool
  | .str _ => true
  | _ => false

/-- The optional field `k`, when present, satisfies `p`. -/
def optField (kvs : List (String × Json)) (k : String) (p : Json → Bool) : Bool :=
  match kvs.lookup k with
  | none => true
  | some v => p v

/-- Python `int(...)` succeeds on the value. -/
def intableB (v : Json) : Bool :=
  match pyToInt v with
  | .ok _ => true
  | .error _ => false

/-- An equipment entry is a dict; when its type field is the string "IMEI"
its value field must be present and a string (the source indexes it with
`d[k]` and slices it). -/
def wfEquip (e : Json) : Bool :=
  match e with
  | .obj kvs =>
    match kvs.lookup "User-Equipment-Info-Type" with
    | some (.str t) =>
      if t == "IMEI" then
        match kvs.lookup "User-Equipment-Info-Value" with
        | some (.str _) => true
        | _ => false
      else true
    | some _ => true
    | none => true
  | _ => false

/-- A session entry is a dict whose optional PS-Information is a dict with
an optional equipment array of well-formed entries. -/
def wfSession (s : Json) : Bool :=
  match s with
  | .obj kvs =>
    optField kvs "PS-Information" (fun p =>
      match p with
      | .obj pkvs => optField pkvs "User-Equipment-Info" (fun u =>
          match u with
          | .arr es => es.all wfEquip
          | _ => false)
      | _ => false)
  | _ => false

/-- Well-formed data-session body: a dict whose optional sessions field is
an array of well-formed session entries. -/
def wf_ds (body : Json) : Bool :=
  match body with
  | .obj kvs => optField kvs "sessions" (fun s =>
      match s with
      | .arr ss => ss.all wfSession
      | _ => false)
  | _ => false

/-- Well-formed usage sub-object: a dict whose optional counters coerce. -/
def wfUsage (u : Json) : Bool :=
  match u with
  | .obj kvs => optField kvs "uplink" intableB && optField kvs "downlink" intableB &&
      optField kvs "total" intableB
  | _ => false

/-- Well-formed dataSession sub-object of a CDR entry. -/
def wfCdrSession (s : Json) : Bool :=
  match s with
  | .obj kvs => optField kvs "usage" wfUsage && optField kvs "request" isObjB &&
      optField kvs "imei" isStrB
  | _ => false

/-- Well-formed CDR content entry. -/
def wfCdrEntry (e : Json) : Bool :=
  match e with
  | .obj kvs => optField kvs "header" isObjB &&
      optField kvs "body" (fun b =>
        match b with
        | .obj bkvs => optField bkvs "dataSession" wfCdrSession
        | _ => false)
  | _ => false

/-- Well-formed CDR body: a dict whose optional content field is an array
of well-formed entries. -/
def wf_cdr (body : Json) : Bool :=
  match body with
  | .obj kvs => optField kvs "content" (fun c =>
      match c with
      | .arr es => es.all wfCdrEntry
      | _ => false)
  | _ => false

/-- Well-formed network-attach event. -/
def wfNaEvent (e : Json) : Bool :=
  match e with
  | .obj kvs => optField kvs "header" isObjB &&
      optField kvs "body" (fun b =>
        match b with
        | .obj bkvs => optField bkvs "imei" isStrB
        | _ => false)
  | _ => false

/-- Well-formed network-attach body: a dict whose optional content field is
an array of well-formed events. -/
def wf_na (body : Json) : Bool :=
  match body with
  | .obj kvs => optField kvs "content" (fun c =>
      match c with
      | .arr es => es.all wfNaEvent
      | _ => false)
  | _ => false

/-- The computation never fails with a Python `ValueError`. -/
def noVE {α : Type} (x : Py α) : Prop := ∀ m, x ≠ .error (.valueError m)

/-- A singleton lexical item is a valid string body. -/
theorem StrBody.single {i : List Char} (h : StrItem i) : StrBody i := by
  have := StrBody.cons h StrBody.nil
  simpa using this

/-- String bodies are closed under concatenation. -/
theorem StrBody.append {a b : List Char} (ha : StrBody a) (hb : StrBody b) :
    StrBody (a ++ b) := by
  induction ha with
  | nil => simpa using hb
  | cons hi _ ih =>
    rw [List.append_assoc]
    exact StrBody.cons hi ih

/-- Every output of `hexChar` is a hexadecimal digit. -/
theorem hexChar_isHex (n : Nat) : isHexDigitChar (hexChar n) = true := by
  unfold hexChar
  split <;> decide

/-- Every component of `hex4` is a hexadecimal digit, so the corresponding
unicode escape is a valid lexical item. -/
theorem strItem_hex4 (n : Nat) : StrItem ([bs, 'u'] ++ hex4 n) :=
  StrItem.hex _ _ _ _ (hexChar_isHex _) (hexChar_isHex _) (hexChar_isHex _) (hexChar_isHex _)

/-- Escaping any character yields a valid string body. -/
theorem strBody_escChar (c : Char) : StrBody (escChar c) := by
  unfold escChar
  split
  · exact StrBody.single (StrItem.esc dq (by decide))
  split
  · exact StrBody.single (StrItem.esc bs (by decide))
  split
  · exact StrBody.single (StrItem.esc 'n' (by decide))
  split
  · exact StrBody.single (StrItem.esc 'r' (by decide))
  split
  · exact StrBody.single (StrItem.esc 't' (by decide))
  split
  · exact StrBody.single (StrItem.esc 'b' (by decide))
  split
  · exact StrBody.single (StrItem.esc 'f' (by decide))
  split
  · exact StrBody.single (strItem_hex4 _)
  split
  case _ h1 h2 h3 h4 h5 h6 h7 h8 h9 =>
    refine StrBody.single (StrItem.plain _ ?_)
    simp only [jPlainChar, Bool.and_eq_true, decide_eq_true_eq, bne_iff_ne, ne_eq]
    refine ⟨⟨⟨by omega, h9⟩, h1⟩, h2⟩
  split
  · exact StrBody.single (strItem_hex4 _)
  · exact StrBody.append (StrBody.single (strItem_hex4 _)) (StrBody.single (strItem_hex4 _))

/-- Escaping a whole string yields a valid string body. -/
theorem strBody_strEsc (l : List Char) : StrBody (strEsc l) := by
  induction l with
  | nil => exact StrBody.nil
  | cons c r ih => exact StrBody.append (strBody_escChar c) ih

/-- Digit characters for values below ten are decimal digits. -/
theorem digitChar_isDigit {n : Nat} (h : n < 10) : (Nat.digitChar n).isDigit = true := by
  interval_cases n <;> decide

/-- The digit character of a nonzero value below ten is not the zero digit. -/
theorem digitChar_ne_zero {n : Nat} (h0 : n ≠ 0) (h : n < 10) : Nat.digitChar n ≠ '0' := by
  interval_cases n <;> simp_all <;> decide

/-- With sufficient fuel, `natDigitsAux` produces a nonempty all-digit list;
it is `['0']` exactly for zero and otherwise starts with a nonzero digit. -/
theorem natDigitsAux_spec (fuel : Nat) : ∀ n : Nat, n < fuel →
    natDigitsAux fuel n ≠ [] ∧ (natDigitsAux fuel n).all Char.isDigit = true ∧
      (n = 0 → natDigitsAux fuel n = ['0']) ∧
      (n ≠ 0 → (natDigitsAux fuel n).head? ≠ some '0') := by
  induction fuel with
  | zero => intro n hn; omega
  | succ f ih =>
    intro n hn
    by_cases h10 : n < 10
    · unfold natDigitsAux
      simp only [h10, if_true]
      refine ⟨by simp, by simp [digitChar_isDigit h10], ?_, ?_⟩
      · intro h0; subst h0; rfl
      · intro h0
        simp only [List.head?_cons, ne_eq, Option.some.injEq]
        exact digitChar_ne_zero h0 h10
    · have hdiv : n / 10 < f := by
        have h1 : n / 10 < n := Nat.div_lt_self (by omega) (by omega)
        omega
      have hdiv0 : n / 10 ≠ 0 := by
        have := Nat.div_le_div_right (c := 10) (show 10 ≤ n by omega)
        simp at this
        omega
      obtain ⟨hne, hdig, _, hhead⟩ := ih (n / 10) hdiv
      unfold natDigitsAux
      simp only [h10, if_false]
      have hmod : n % 10 < 10 := Nat.mod_lt _ (by omega)
      refine ⟨by simp, ?_, by omega, ?_⟩
      · simp only [List.all_append, Bool.and_eq_true]
        exact ⟨hdig, by simp [digitChar_isDigit hmod]⟩
      · intro _
        obtain ⟨c, rest, hcr⟩ : ∃ c rest, natDigitsAux f (n / 10) = c :: rest := by
          cases hx : natDigitsAux f (n / 10) with
          | nil => exact absurd hx hne
          | cons c rest => exact ⟨c, rest, rfl⟩
        rw [hcr]
        rw [hcr] at hhead
        simpa using hhead hdiv0

/-- The digits of a natural number form a valid canonical integer literal. -/
theorem natDigits_spec (n : Nat) : natDigits n ≠ [] ∧ (natDigits n).all Char.isDigit = true ∧
    noLeadZero (natDigits n) = true := by
  obtain ⟨hne, hdig, hzero, hhead⟩ := natDigitsAux_spec (n + 1) n (by omega)
  refine ⟨hne, hdig, ?_⟩
  unfold natDigits
  by_cases h0 : n = 0
  · rw [hzero h0]; rfl
  · unfold noLeadZero
    have := hhead h0
    simp only [Bool.or_eq_true, bne_iff_ne, ne_eq]
    right
    exact this

/-- The decimal rendering of any integer is valid JSON text. -/
theorem intRepr_valid (n : Int) : JsonText (intRepr n) := by
  obtain ⟨hne, hdig, hlead⟩ := natDigits_spec n.natAbs
  unfold intRepr
  split
  · exact JsonText.jnumNeg _ hne hdig hlead
  · exact JsonText.jnumPos _ hne hdig hlead

mutual

/-- Serializing any JSON value yields valid JSON text. -/
theorem dumps_valid : ∀ j : Json, JsonText (dumps j)
  | .null => JsonText.jnull
  | .bool true => JsonText.jtrue
  | .bool false => JsonText.jfalse
  | .num n => intRepr_valid n
  | .str s => JsonText.jstr (strBody_strEsc s.data)
  | .arr [] => JsonText.jarrNil
  | .arr (x :: xs) => JsonText.jarr (dumpsElems_valid (x :: xs) (by simp))
  | .obj [] => JsonText.jobjNil
  | .obj (kv :: kvs) => JsonText.jobj (dumpsMembers_valid (kv :: kvs) (by simp))

/-- Serialized array elements form a valid element sequence. -/
theorem dumpsElems_valid : ∀ xs : List Json, xs ≠ [] → ElemsText (dumpsElems xs)
  | [], h => absurd rfl h
  | [x], _ => ElemsText.one (dumps_valid x)
  | x :: y :: r, _ => ElemsText.cons (dumps_valid x) (dumpsElems_valid (y :: r) (by simp))

/-- Serialized object members form a valid member sequence. -/
theorem dumpsMembers_valid : ∀ kvs : List (String × Json), kvs ≠ [] →
    MembersText (dumpsMembers kvs)
  | [], h => absurd rfl h
  | [(k, v)], _ => MembersText.one (strBody_strEsc k.data) (dumps_valid v)
  | (k, v) :: m :: r, _ => by
    have h := MembersText.cons (k := strEsc k.data) (strBody_strEsc k.data) (dumps_valid v)
      (dumpsMembers_valid (m :: r) (by simp))
    show MembersText ((dq :: strEsc k.data ++ dq :: ':' :: ' ' :: dumps v) ++
      ',' :: ' ' :: dumpsMembers (m :: r))
    simpa [List.append_assoc] using h

end

/-- Serializing to a string yields text accepted by the JSON grammar. -/
theorem dumpsStr_valid (j : Json) : JsonText (dumpsStr j).data := dumps_valid j

/-- Bind on `ok` computes. -/
@[simp] theorem py_bind_ok {α β : Type} (a : α) (f : α → Py β) :
    (Except.ok a >>= f : Py β) = f a := rfl

/-- Bind on `error` short-circuits. -/
@[simp] theorem py_bind_err {α β : Type} (e : PyErr) (f : α → Py β) :
    (Except.error e >>= f : Py β) = Except.error e := rfl

/-- Pure is `ok`. -/
@[simp] theorem py_pure {α : Type} (a : α) : (pure a : Py α) = Except.ok a := rfl

/-- Python `.get` on a dict returns the value or the default. -/
@[simp] theorem pyGet_obj (kvs : List (String × Json)) (k : String) (d : Json) :
    pyGet (.obj kvs) k d = .ok ((kvs.lookup k).getD d) := rfl

/-- A present optional field satisfies its predicate. -/
theorem optField_some {kvs : List (String × Json)} {k : String} {p : Json → Bool} {v : Json}
    (h : optField kvs k p = true) (hv : kvs.lookup k = some v) : p v = true := by
  unfold optField at h
  rw [hv] at h
  exact h

/-- Pointwise-successful maps succeed. -/
theorem mapE_ok {f : Json → Py Json} {p : Json → Bool}
    (hf : ∀ x, p x = true → ∃ y, f x = .ok y) :
    ∀ xs : List Json, xs.all p = true → ∃ ys, mapE f xs = .ok ys := by
  intro xs
  induction xs with
  | nil => intro _; exact ⟨[], rfl⟩
  | cons x r ih =>
    intro h
    simp only [List.all_cons, Bool.and_eq_true] at h
    obtain ⟨y, hy⟩ := hf x h.1
    obtain ⟨ys, hys⟩ := ih h.2
    exact ⟨y :: ys, by simp [mapE, hy, hys]⟩

/-- Python equality of a JSON value with a string literal holds exactly for
that string. -/
theorem pyEqStr_iff (j : Json) (s : String) : pyEqStr j s = true ↔ j = .str s := by
  cases j <;> simp [pyEqStr]

/-- On well-formed equipment lists the TAC scan cannot raise. -/
theorem find_imei_tac_ok : ∀ es : List Json, es.all wfEquip = true →
    ∃ t, find_imei_tac es = .ok t := by
  intro es
  induction es with
  | nil => intro _; exact ⟨.null, rfl⟩
  | cons e rest ih =>
    intro h
    simp only [List.all_cons, Bool.and_eq_true] at h
    obtain ⟨he, hrest⟩ := h
    obtain ⟨kvs, rfl⟩ : ∃ kvs, e = .obj kvs := by
      cases e <;> first | exact ⟨_, rfl⟩ | simp [wfEquip] at he
    simp only [find_imei_tac, pyGet_obj, py_bind_ok]
    cases hty : kvs.lookup "User-Equipment-Info-Type" with
    | none =>
      simp only [hty, Option.getD_none, pyEqStr, Bool.false_eq_true, if_false]
      exact ih hrest
    | some v =>
      simp only [hty, Option.getD_some]
      by_cases hq : pyEqStr v "IMEI" = true
      · rw [if_pos hq]
        rw [pyEqStr_iff] at hq
        subst hq
        simp only [wfEquip, hty, beq_self_eq_true, if_true] at he
        cases hval : kvs.lookup "User-Equipment-Info-Value" with
        | none => rw [hval] at he; simp at he
        | some w =>
          rw [hval] at he
          cases w <;> simp at he
          rename_i ws
          simp only [pyGetItem, hval, py_bind_ok]
          cases hw : (Json.str ws).truthy with
          | false => simp only [hw, Bool.false_eq_true, if_false]; exact ⟨_, rfl⟩
          | true => simp only [hw, if_true, pySlice]; exact ⟨_, rfl⟩
      · rw [if_neg (by simpa using hq)]
        exact ih hrest

/-- On a well-formed session entry the per-session normalization succeeds. -/
theorem parse_session_ok {s : Json} (h : wfSession s = true) :
    ∃ j, parse_session s = .ok j := by
  obtain ⟨kvs, rfl⟩ : ∃ kvs, s = .obj kvs := by
    cases s <;> first | exact ⟨_, rfl⟩ | simp [wfSession] at h
  simp only [wfSession] at h
  simp only [parse_session, pyGet_obj, py_bind_ok]
  cases hp : kvs.lookup "PS-Information" with
  | none =>
    simp only [hp, Option.getD_none]
    simp only [pyGet_obj, List.lookup, Option.getD_none, py_bind_ok, pyIter, mapE]
    exact ⟨_, rfl⟩
  | some p =>
    have hp' := optField_some h hp
    obtain ⟨pkvs, rfl⟩ : ∃ pkvs, p = .obj pkvs := by
      cases p <;> first | exact ⟨_, rfl⟩ | simp at hp'
    simp only at hp'
    simp only [hp, Option.getD_some, pyGet_obj, py_bind_ok]
    cases hu : pkvs.lookup "User-Equipment-Info" with
    | none =>
      simp only [hu, Option.getD_none, pyIter, py_bind_ok, find_imei_tac]
      exact ⟨_, rfl⟩
    | some u =>
      have hu' := optField_some hp' hu
      obtain ⟨es, rfl⟩ : ∃ es, u = .arr es := by
        cases u <;> first | exact ⟨_, rfl⟩ | simp at hu'
      simp only at hu'
      simp only [hu, Option.getD_some, pyIter, py_bind_ok]
      obtain ⟨t, ht⟩ := find_imei_tac_ok es hu'
      rw [ht]
      simp only [py_bind_ok]
      exact ⟨_, rfl⟩

/-- On a well-formed body the data-session normalizer succeeds for every
HTTP status. -/
theorem helper_data_session_obj_ok (st : Nat) {body : Json} (h : wf_ds body = true) :
    ∃ j, helper_data_session_obj ⟨st, body⟩ = .ok j := by
  unfold helper_data_session_obj
  split
  · exact ⟨_, rfl⟩
  obtain ⟨kvs, rfl⟩ : ∃ kvs, body = .obj kvs := by
    cases body <;> first | exact ⟨_, rfl⟩ | simp [wf_ds] at h
  simp only [wf_ds] at h
  simp only [Response.json, pyGet_obj, py_bind_ok]
  cases hs : kvs.lookup "sessions" with
  | none =>
    simp only [hs, Option.getD_none, pyIter, py_bind_ok, mapE]
    exact ⟨_, rfl⟩
  | some sv =>
    have hs' := optField_some h hs
    obtain ⟨ss, rfl⟩ : ∃ ss, sv = .arr ss := by
      cases sv <;> first | exact ⟨_, rfl⟩ | simp at hs'
    simp only at hs'
    simp only [hs, Option.getD_some, pyIter, py_bind_ok]
    obtain ⟨ys, hys⟩ := mapE_ok (fun x hx => parse_session_ok hx) ss hs'
    rw [hys]
    simp only [py_bind_ok]
    exact ⟨_, rfl⟩

/-- A default-filled optional field keeps a predicate the default has. -/
theorem optField_getD {kvs : List (String × Json)} {k : String} {p : Json → Bool} {d : Json}
    (h : optField kvs k p = true) (hd : p d = true) :
    p ((kvs.lookup k).getD d) = true := by
  cases hl : kvs.lookup k with
  | none => simpa [hl] using hd
  | some v => simpa [hl] using optField_some h hl

/-- Coercible values coerce to some integer. -/
theorem intableB_ok {v : Json} (h : intableB v = true) : ∃ n, pyToInt v = .ok n := by
  unfold intableB at h
  cases hx : pyToInt v with
  | error e => rw [hx] at h; simp at h
  | ok n => exact ⟨n, rfl⟩

/-- When the imei field is absent or a string, the CDR TAC expression
succeeds. -/
theorem cdr_tac_ok {skvs : List (String × Json)}
    (h : optField skvs "imei" isStrB = true) :
    ∃ t, cdr_tac (.obj skvs) = .ok t := by
  simp only [cdr_tac, pyGet_obj, py_bind_ok]
  cases hl : skvs.lookup "imei" with
  | none =>
    simp only [hl, Option.getD_none]
    exact ⟨_, rfl⟩
  | some v =>
    have hv := optField_some h hl
    obtain ⟨ws, rfl⟩ : ∃ ws, v = .str ws := by
      cases v <;> first | exact ⟨_, rfl⟩ | simp [isStrB] at hv
    simp only [hl, Option.getD_some]
    cases hw : (Json.str ws).truthy with
    | false => simp only [hw, Bool.false_eq_true, if_false]; exact ⟨_, rfl⟩
    | true =>
      simp only [hw, if_true, pyGet_obj, py_bind_ok, hl, Option.getD_some, pySlice]
      exact ⟨_, rfl⟩

/-- On a well-formed CDR entry the per-record normalization succeeds. -/
theorem parse_cdr_record_ok {e : Json} (h : wfCdrEntry e = true) :
    ∃ j, parse_cdr_record e = .ok j := by
  obtain ⟨ekvs, rfl⟩ : ∃ ekvs, e = .obj ekvs := by
    cases e <;> first | exact ⟨_, rfl⟩ | simp [wfCdrEntry] at h
  simp only [wfCdrEntry, Bool.and_eq_true] at h
  obtain ⟨hheader, hbody⟩ := h
  simp only [parse_cdr_record, pyGet_obj, py_bind_ok]
  have hH := optField_getD (d := .obj []) hheader (by rfl)
  obtain ⟨hkvs, hHe⟩ : ∃ hkvs, (ekvs.lookup "header").getD (.obj []) = .obj hkvs := by
    cases hx : (ekvs.lookup "header").getD (.obj []) <;> rw [hx] at hH <;>
      first | exact ⟨_, rfl⟩ | simp [isObjB] at hH
  rw [hHe]
  have hB := optField_getD (d := .obj []) hbody (by rfl)
  obtain ⟨bkvs, hBe, hDS⟩ : ∃ bkvs, (ekvs.lookup "body").getD (.obj []) = .obj bkvs ∧
      optField bkvs "dataSession" wfCdrSession = true := by
    cases hx : (ekvs.lookup "body").getD (.obj []) <;> rw [hx] at hB
    case obj bkvs => exact ⟨bkvs, rfl, hB⟩
    all_goals simp at hB
  rw [hBe]
  simp only [pyGet_obj, py_bind_ok]
  have hS := optField_getD (d := .obj []) hDS (by rfl)
  obtain ⟨skvs, hSe⟩ : ∃ skvs, (bkvs.lookup "dataSession").getD (.obj []) = .obj skvs := by
    cases hx : (bkvs.lookup "dataSession").getD (.obj []) <;> rw [hx] at hS <;>
      first | exact ⟨_, rfl⟩ | simp [wfCdrSession] at hS
  rw [hSe] at hS ⊢
  simp only [wfCdrSession, Bool.and_eq_true] at hS
  obtain ⟨⟨husage, hreq⟩, himei⟩ := hS
  simp only [pyGet_obj, py_bind_ok]
  have hU := optField_getD (d := .obj []) husage (by rfl)
  obtain ⟨ukvs, hUe⟩ : ∃ ukvs, (skvs.lookup "usage").getD (.obj []) = .obj ukvs := by
    cases hx : (skvs.lookup "usage").getD (.obj []) <;> rw [hx] at hU <;>
      first | exact ⟨_, rfl⟩ | simp [wfUsage] at hU
  rw [hUe] at hU ⊢
  simp only [wfUsage, Bool.and_eq_true] at hU
  obtain ⟨⟨hup, hdown⟩, htot⟩ := hU
  obtain ⟨t, ht⟩ := cdr_tac_ok himei
  rw [ht]
  simp only [py_bind_ok]
  have hR := optField_getD (d := .obj []) hreq (by rfl)
  obtain ⟨rkvs, hRe⟩ : ∃ rkvs, (skvs.lookup "request").getD (.obj []) = .obj rkvs := by
    cases hx : (skvs.lookup "request").getD (.obj []) <;> rw [hx] at hR <;>
      first | exact ⟨_, rfl⟩ | simp [isObjB] at hR
  rw [hRe]
  simp only [pyGet_obj, py_bind_ok]
  obtain ⟨nu, hnu⟩ := intableB_ok (optField_getD (d := .num 0) hup (by rfl))
  obtain ⟨nd, hnd⟩ := intableB_ok (optField_getD (d := .num 0) hdown (by rfl))
  obtain ⟨nt, hnt⟩ := intableB_ok (optField_getD (d := .num 0) htot (by rfl))
  rw [hnu, hnd, hnt]
  simp only [py_bind_ok]
  exact ⟨_, rfl⟩

/-- For a 200 status and a well-formed body the CDR normalizer produces the
inactive form or the active form. -/
theorem helper_cdr_obj_cases {body : Json} (h : wf_cdr body = true) :
    helper_cdr_obj ⟨200, body⟩ = .ok (.obj [("status", .str "inactive"),
        ("detail", .str "No CDR records found"), ("totalElements", .num 0)]) ∨
    ∃ te recs, helper_cdr_obj ⟨200, body⟩ = .ok (.obj [("status", .str "active"),
        ("totalElements", te), ("records", .arr recs)]) := by
  obtain ⟨kvs, rfl⟩ : ∃ kvs, body = .obj kvs := by
    cases body <;> first | exact ⟨_, rfl⟩ | simp [wf_cdr] at h
  simp only [wf_cdr] at h
  unfold helper_cdr_obj
  simp only [Response.json, bne_self_eq_false, Bool.false_eq_true, if_false, pyGet_obj,
    py_bind_ok]
  by_cases hz : pyEqInt ((kvs.lookup "totalElements").getD (.num 0)) 0 = true
  · rw [if_pos hz]
    left
    rfl
  · rw [if_neg hz]
    right
    cases hc : kvs.lookup "content" with
    | none =>
      simp only [hc, Option.getD_none, pyIter, py_bind_ok, mapE, pyGet_obj]
      exact ⟨_, _, rfl⟩
    | some cv =>
      have hc' := optField_some h hc
      obtain ⟨es, rfl⟩ : ∃ es, cv = .arr es := by
        cases cv <;> first | exact ⟨_, rfl⟩ | simp at hc'
      simp only at hc'
      simp only [hc, Option.getD_some, pyIter, py_bind_ok]
      obtain ⟨rs, hrs⟩ := mapE_ok (fun x hx => parse_cdr_record_ok hx) es hc'
      rw [hrs]
      simp only [py_bind_ok, pyGet_obj]
      exact ⟨_, _, rfl⟩

/-- On a well-formed attach event the per-event normalization succeeds. -/
theorem parse_event_ok {e : Json} (h : wfNaEvent e = true) : ∃ j, parse_event e = .ok j := by
  obtain ⟨ekvs, rfl⟩ : ∃ ekvs, e = .obj ekvs := by
    cases e <;> first | exact ⟨_, rfl⟩ | simp [wfNaEvent] at h
  simp only [wfNaEvent, Bool.and_eq_true] at h
  obtain ⟨hheader, hbody⟩ := h
  simp only [parse_event, pyGet_obj, py_bind_ok]
  have hH := optField_getD (d := .obj []) hheader (by rfl)
  obtain ⟨hkvs, hHe⟩ : ∃ hkvs, (ekvs.lookup "header").getD (.obj []) = .obj hkvs := by
    cases hx : (ekvs.lookup "header").getD (.obj []) <;> rw [hx] at hH <;>
      first | exact ⟨_, rfl⟩ | simp [isObjB] at hH
  rw [hHe]
  have hB := optField_getD (d := .obj []) hbody (by rfl)
  obtain ⟨bkvs, hBe, hIm⟩ : ∃ bkvs, (ekvs.lookup "body").getD (.obj []) = .obj bkvs ∧
      optField bkvs "imei" isStrB = true := by
    cases hx : (ekvs.lookup "body").getD (.obj []) <;> rw [hx] at hB
    case obj bkvs => exact ⟨bkvs, rfl, hB⟩
    all_goals simp at hB
  rw [hBe]
  simp only [pyGet_obj, py_bind_ok]
  cases hl : bkvs.lookup "imei" with
  | none =>
    simp only [hl, Option.getD_none, na_tac]
    simp only [Json.truthy, bne_self_eq_false, Bool.false_eq_true, if_false, py_pure,
      py_bind_ok]
    exact ⟨_, rfl⟩
  | some v =>
    have hv := optField_some hIm hl
    obtain ⟨ws, rfl⟩ : ∃ ws, v = .str ws := by
      cases v <;> first | exact ⟨_, rfl⟩ | simp [isStrB] at hv
    simp only [hl, Option.getD_some, na_tac]
    cases hw : (Json.str ws).truthy with
    | false =>
      simp only [hw, Bool.false_eq_true, if_false, py_pure, py_bind_ok]
      exact ⟨_, rfl⟩
    | true =>
      simp only [hw, if_true, pySlice, py_bind_ok]
      exact ⟨_, rfl⟩

/-- For a 200 status and a well-formed body the network-attach normalizer
produces the no-data form, the last-attach form, or the records form. -/
theorem helper_network_attach_obj_cases {body : Json} (lo : Bool) (h : wf_na body = true) :
    helper_network_attach_obj ⟨200, body⟩ lo = .ok (.obj [("status", .str "no_data"),
        ("detail", .str "No location history found")]) ∨
    (∃ ev, helper_network_attach_obj ⟨200, body⟩ lo =
        .ok (.obj [("status", .str "ok"), ("lastAttach", ev)])) ∨
    (∃ te recs, helper_network_attach_obj ⟨200, body⟩ lo =
        .ok (.obj [("status", .str "ok"), ("totalElements", te), ("records", .arr recs)])) := by
  obtain ⟨kvs, rfl⟩ : ∃ kvs, body = .obj kvs := by
    cases body <;> first | exact ⟨_, rfl⟩ | simp [wf_na] at h
  simp only [wf_na] at h
  unfold helper_network_attach_obj
  simp only [Response.json, bne_self_eq_false, Bool.false_eq_true, if_false, pyGet_obj,
    py_bind_ok]
  cases hc : kvs.lookup "content" with
  | none =>
    left
    simp only [hc, Option.getD_none, Json.truthy, List.isEmpty_nil, Bool.not_true,
      Bool.false_eq_true, if_false, Bool.not_false, if_true, py_pure]
  | some cv =>
    have hc' := optField_some h hc
    obtain ⟨es, rfl⟩ : ∃ es, cv = .arr es := by
      cases cv <;> first | exact ⟨_, rfl⟩ | simp at hc'
    simp only at hc'
    cases es with
    | nil =>
      left
      simp only [hc, Option.getD_some, Json.truthy, List.isEmpty_nil, Bool.not_true,
        Bool.false_eq_true, if_false, Bool.not_false, if_true, py_pure]
    | cons e es' =>
      simp only [hc, Option.getD_some, Json.truthy, List.isEmpty_cons, Bool.not_false,
        Bool.true_eq_false, if_false]
      have hc'2 := hc'
      simp only [List.all_cons, Bool.and_eq_true] at hc'
      cases lo with
      | true =>
        right; left
        simp only [if_true, pyIndex0, py_bind_ok]
        obtain ⟨ev, hev⟩ := parse_event_ok hc'.1
        rw [hev]
        simp only [py_bind_ok]
        exact ⟨ev, rfl⟩
      | false =>
        right; right
        simp only [Bool.false_eq_true, if_false, pyIter, py_bind_ok]
        have hall : (e :: es').all wfNaEvent = true := hc'2
        obtain ⟨recs, hrecs⟩ := mapE_ok (fun x hx => parse_event_ok hx) (e :: es') hall
        rw [hrecs]
        simp only [py_bind_ok, pyGet_obj]
        exact ⟨_, _, rfl⟩

/-- For a non-200 status the CDR normalizer returns exactly the error form. -/
theorem helper_cdr_obj_non200 {st : Nat} (body : Json) (h : st ≠ 200) :
    helper_cdr_obj ⟨st, body⟩ =
      .ok (.obj [("error", .str ("API returned " ++ toString st)),
        ("detail", .str (dumpsStr body))]) := by
  unfold helper_cdr_obj
  rw [if_pos (by simpa [bne_iff_ne] using h)]
  rfl

/-- For a non-200 status the network-attach normalizer returns exactly the
error form. -/
theorem helper_network_attach_obj_non200 {st : Nat} (body : Json) (lo : Bool) (h : st ≠ 200) :
    helper_network_attach_obj ⟨st, body⟩ lo =
      .ok (.obj [("error", .str ("API returned " ++ toString st)),
        ("detail", .str (dumpsStr body))]) := by
  unfold helper_network_attach_obj
  rw [if_pos (by simpa [bne_iff_ne] using h)]
  rfl

/-- On a well-formed body the CDR normalizer succeeds for every status. -/
theorem helper_cdr_obj_ok (st : Nat) {body : Json} (h : wf_cdr body = true) :
    ∃ j, helper_cdr_obj ⟨st, body⟩ = .ok j := by
  by_cases h200 : st = 200
  · subst h200
    rcases helper_cdr_obj_cases h with h1 | ⟨te, recs, h2⟩
    · exact ⟨_, h1⟩
    · exact ⟨_, h2⟩
  · exact ⟨_, helper_cdr_obj_non200 body h200⟩

/-- On a well-formed body the network-attach normalizer succeeds for every
status. -/
theorem helper_network_attach_obj_ok (st : Nat) {body : Json} (lo : Bool)
    (h : wf_na body = true) :
    ∃ j, helper_network_attach_obj ⟨st, body⟩ lo = .ok j := by
  by_cases h200 : st = 200
  · subst h200
    rcases helper_network_attach_obj_cases lo h with h1 | ⟨ev, h2⟩ | ⟨te, recs, h3⟩
    · exact ⟨_, h1⟩
    · exact ⟨_, h2⟩
    · exact ⟨_, h3⟩
  · exact ⟨_, helper_network_attach_obj_non200 body lo h200⟩

/-- Successful computations raise nothing. -/
theorem noVE_ok {α : Type} (a : α) : noVE (.ok a : Py α) := by
  intro m h
  exact Except.noConfusion h

/-- Binding preserves freedom from `ValueError`. -/
theorem noVE_bind {α β : Type} {a : Py α} {f : α → Py β} (ha : noVE a)
    (hf : ∀ v, noVE (f v)) : noVE (a >>= f) := by
  intro m h
  cases a with
  | error e =>
    rw [py_bind_err] at h
    injection h with he
    exact ha m (by rw [he])
  | ok v => rw [py_bind_ok] at h; exact hf v m h

/-- Mapping preserves freedom from `ValueError`. -/
theorem noVE_map {α β : Type} {a : Py α} (f : α → β) (ha : noVE a) : noVE (a.map f) := by
  intro m h
  cases a with
  | error e =>
    rw [show (Except.error e : Py α).map f = .error e from rfl] at h
    injection h with he
    exact ha m (by rw [he])
  | ok v => rw [show (Except.ok v : Py α).map f = .ok (f v) from rfl] at h; exact Except.noConfusion h

/-- Dictionary reads with a default never raise `ValueError`. -/
theorem noVE_pyGet (j : Json) (k : String) (d : Json) : noVE (pyGet j k d) := by
  intro m h
  cases j <;> simp [pyGet] at h

/-- Indexing at zero never raises `ValueError`. -/
theorem noVE_pyIndex0 (j : Json) : noVE (pyIndex0 j) := by
  intro m h
  cases j with
  | arr xs => cases xs <;> simp [pyIndex0] at h
  | str s => cases hd : s.data <;> simp [pyIndex0, hd] at h
  | null => simp [pyIndex0] at h
  | bool b => simp [pyIndex0] at h
  | num n => simp [pyIndex0] at h
  | obj kvs => simp [pyIndex0] at h

/-- Slicing never raises `ValueError`. -/
theorem noVE_pySlice (j : Json) (n : Nat) : noVE (pySlice j n) := by
  intro m h
  cases j <;> simp [pySlice] at h

/-- Iteration never raises `ValueError`. -/
theorem noVE_pyIter (j : Json) : noVE (pyIter j) := by
  intro m h
  cases j <;> simp [pyIter] at h

/-- Effectful maps of `ValueError`-free functions are `ValueError`-free. -/
theorem noVE_mapE {f : Json → Py Json} (hf : ∀ x, noVE (f x)) :
    ∀ xs, noVE (mapE f xs) := by
  intro xs
  induction xs with
  | nil => exact noVE_ok _
  | cons x r ih =>
    simp only [mapE]
    exact noVE_bind (hf x) (fun y => noVE_bind ih (fun ys => noVE_ok _))

/-- Per-event normalization of attach events never raises `ValueError`. -/
theorem noVE_parse_event (e : Json) : noVE (parse_event e) := by
  unfold parse_event
  refine noVE_bind (noVE_pyGet _ _ _) (fun header => ?_)
  refine noVE_bind (noVE_pyGet _ _ _) (fun body => ?_)
  refine noVE_bind (noVE_pyGet _ _ _) (fun imei => ?_)
  refine noVE_bind (noVE_pyGet _ _ _) (fun eventDate => ?_)
  refine noVE_bind (noVE_pyGet _ _ _) (fun eventType => ?_)
  refine noVE_bind (noVE_pyGet _ _ _) (fun mcc => ?_)
  refine noVE_bind (noVE_pyGet _ _ _) (fun mnc => ?_)
  refine noVE_bind (noVE_pyGet _ _ _) (fun operatorName => ?_)
  refine noVE_bind (noVE_pyGet _ _ _) (fun country => ?_)
  refine noVE_bind ?_ (fun tac => noVE_ok _)
  unfold na_tac
  split
  · exact noVE_pySlice _ _
  · exact noVE_ok _

/-- The network-attach normalizer never raises `ValueError`. -/
theorem noVE_helper_network_attach (r : Response) (lo : Bool) :
    noVE (helper_network_attach r lo) := by
  unfold helper_network_attach
  refine noVE_map _ ?_
  unfold helper_network_attach_obj
  split
  · exact noVE_ok _
  refine noVE_bind (noVE_pyGet _ _ _) (fun content => ?_)
  split
  · exact noVE_ok _
  split
  · refine noVE_bind (noVE_pyIndex0 _) (fun first => ?_)
    exact noVE_bind (noVE_parse_event _) (fun ev => noVE_ok _)
  · refine noVE_bind (noVE_pyIter _) (fun items => ?_)
    refine noVE_bind (noVE_mapE noVE_parse_event _) (fun recs => ?_)
    exact noVE_bind (noVE_pyGet _ _ _) (fun te => noVE_ok _)

/-- With no SIM-search match (an empty or absent sims list), the SIM lookup
raises exactly the not-found `ValueError`. -/
theorem get_sim_serial_empty {skvs : List (String × Json)} {st : Nat} (imsi : String)
    (hst : ¬(400 ≤ st ∧ st < 600))
    (hs : skvs.lookup "sims" = none ∨ skvs.lookup "sims" = some (.arr [])) :
    get_sim_serial ⟨st, .obj skvs⟩ imsi =
      .error (.valueError ("No SIM found for IMSI " ++ imsi)) := by
  unfold get_sim_serial
  rw [if_neg hst]
  simp only [Response.json, pyGet_obj, py_bind_ok]
  rcases hs with hs | hs <;> simp [hs, Json.truthy]

/-- With at least one SIM-search match whose first entry carries a serial,
the SIM lookup returns that first serial. -/
theorem get_sim_serial_first {skvs swkvs : List (String × Json)} {st : Nat}
    {rest : List Json} {serial : Json} (imsi : String)
    (hst : ¬(400 ≤ st ∧ st < 600))
    (hs : skvs.lookup "sims" = some (.arr (.obj swkvs :: rest)))
    (hser : swkvs.lookup "simSerial" = some serial) :
    get_sim_serial ⟨st, .obj skvs⟩ imsi = .ok serial := by
  unfold get_sim_serial
  rw [if_neg hst]
  simp only [Response.json, pyGet_obj, py_bind_ok, hs, Option.getD_some]
  simp [Json.truthy, pyIndex0, pyGetItem, hser]

/-!  Claim theorems. -/

/-- C4: for every JSON body, a 404 data-session response yields exactly the
string with status inactive and detail "No active data session", whose
object carries no sessions key. -/
theorem C4_data_session_404 (body : Json) :
    helper_data_session ⟨404, body⟩ =
      .ok "\x7b\"status\": \"inactive\", \"detail\": \"No active data session\"\x7d" ∧
    helper_data_session_obj ⟨404, body⟩ =
      .ok (.obj [("status", .str "inactive"), ("detail", .str "No active data session")]) ∧
    (Json.obj [("status", .str "inactive"),
      ("detail", .str "No active data session")]).get? "sessions" = none :=
  ⟨rfl, rfl, rfl⟩

/-- C10: for every non-404 status, a dict body with a missing or empty
sessions list normalizes to status active with an empty sessions array. -/
theorem C10_active_empty_sessions (st : Nat) (kvs : List (String × Json)) (hst : st ≠ 404)
    (hs : kvs.lookup "sessions" = none ∨ kvs.lookup "sessions" = some (.arr [])) :
    helper_data_session_obj ⟨st, .obj kvs⟩ =
      .ok (.obj [("status", .str "active"), ("sessions", .arr [])]) ∧
    helper_data_session ⟨st, .obj kvs⟩ =
      .ok "\x7b\"status\": \"active\", \"sessions\": []\x7d" := by
  have h1 : helper_data_session_obj ⟨st, .obj kvs⟩ =
      .ok (.obj [("status", .str "active"), ("sessions", .arr [])]) := by
    unfold helper_data_session_obj
    rw [if_neg (by simpa using hst)]
    simp only [Response.json, pyGet_obj, py_bind_ok]
    rcases hs with hs | hs <;> simp [hs, pyIter, mapE]
  refine ⟨h1, ?_⟩
  unfold helper_data_session
  rw [h1]
  rfl

/-- C10 witness at status 500 with an empty dict body. -/
theorem C10_witness :
    helper_data_session_obj ⟨500, .obj []⟩ =
      .ok (.obj [("status", .str "active"), ("sessions", .arr [])]) ∧
    helper_data_session ⟨500, .obj []⟩ =
      .ok "\x7b\"status\": \"active\", \"sessions\": []\x7d" :=
  C10_active_empty_sessions 500 [] (by decide) (Or.inl rfl)

/-- C5 counterexample: at the claimed input (status 200, totalElements 0)
the detail field is the string "No CDR records found", not "no records". -/
theorem C5_counterexample :
    ∃ j, helper_cdr_obj ⟨200, .obj [("totalElements", .num 0)]⟩ = .ok j ∧
      j.get? "detail" = some (.str "No CDR records found") ∧
      j.get? "detail" ≠ some (.str "no records") := by
  refine ⟨_, rfl, rfl, ?_⟩
  intro hc
  have h4 : some (Json.str "No CDR records found") = some (Json.str "no records") := hc
  injection h4 with h5
  injection h5 with h6
  exact absurd h6 (by decide)

/-- C5 (amended): a 200-status CDR payload whose totalElements compares
equal to zero normalizes to the inactive object with detail "No CDR records
found", totalElements 0, and no records key. -/
theorem C5_cdr_zero_total (kvs : List (String × Json)) (v : Json)
    (hte : kvs.lookup "totalElements" = some v) (hz : pyEqInt v 0 = true) :
    helper_cdr_obj ⟨200, .obj kvs⟩ = .ok (.obj [("status", .str "inactive"),
      ("detail", .str "No CDR records found"), ("totalElements", .num 0)]) ∧
    helper_cdr ⟨200, .obj kvs⟩ = .ok
      "\x7b\"status\": \"inactive\", \"detail\": \"No CDR records found\", \"totalElements\": 0\x7d" ∧
    (Json.obj [("status", .str "inactive"), ("detail", .str "No CDR records found"),
      ("totalElements", .num 0)]).get? "records" = none := by
  have h1 : helper_cdr_obj ⟨200, .obj kvs⟩ = .ok (.obj [("status", .str "inactive"),
      ("detail", .str "No CDR records found"), ("totalElements", .num 0)]) := by
    unfold helper_cdr_obj
    simp only [Response.json, bne_self_eq_false, Bool.false_eq_true, if_false, pyGet_obj,
      py_bind_ok, hte, Option.getD_some]
    rw [if_pos hz]
    rfl
  refine ⟨h1, ?_, rfl⟩
  unfold helper_cdr
  rw [h1]
  rfl

/-- C5 witness at a concrete zero-total payload. -/
theorem C5_witness :
    helper_cdr_obj ⟨200, .obj [("totalElements", .num 0)]⟩ =
      .ok (.obj [("status", .str "inactive"), ("detail", .str "No CDR records found"),
        ("totalElements", .num 0)]) :=
  (C5_cdr_zero_total [("totalElements", .num 0)] (.num 0) rfl rfl).1

/-- C2 counterexample: status 201 is a 2xx success status, yet both the CDR
and the network-attach normalizers return the error form for it. -/
theorem C2_counterexample :
    helper_cdr_obj ⟨201, .obj [("totalElements", .num 0)]⟩ =
      .ok (.obj [("error", .str "API returned 201"),
        ("detail", .str "\x7b\"totalElements\": 0\x7d")]) ∧
    helper_network_attach_obj ⟨201, .obj []⟩ false =
      .ok (.obj [("error", .str "API returned 201"), ("detail", .str "\x7b\x7d")]) ∧
    (200 ≤ 201 ∧ 201 ≤ 299) :=
  ⟨rfl, rfl, by omega⟩

/-- C2 (amended): the CDR and network-attach normalizers return the error
form with detail equal to the body text exactly when the status differs
from 200; at status 200 on a well-formed body they return one of the
normalized record forms, which never carries an error key. -/
theorem C2_error_form_iff (r : Response) (lo : Bool) :
    (r.status ≠ 200 →
      helper_cdr_obj r = .ok (.obj [("error", .str ("API returned " ++ toString r.status)),
        ("detail", .str r.text)]) ∧
      helper_network_attach_obj r lo = .ok (.obj [("error",
        .str ("API returned " ++ toString r.status)), ("detail", .str r.text)])) ∧
    (r.status = 200 → wf_cdr r.body = true →
      ∃ j, helper_cdr_obj r = .ok j ∧ j.get? "error" = none ∧
        (j.get? "status" = some (.str "inactive") ∨ j.get? "status" = some (.str "active"))) ∧
    (r.status = 200 → wf_na r.body = true →
      ∃ j, helper_network_attach_obj r lo = .ok j ∧ j.get? "error" = none ∧
        (j.get? "status" = some (.str "no_data") ∨ j.get? "status" = some (.str "ok"))) := by
  obtain ⟨st, body⟩ := r
  refine ⟨fun h => ⟨helper_cdr_obj_non200 body h, helper_network_attach_obj_non200 body lo h⟩,
    fun h200 hwf => ?_, fun h200 hwf => ?_⟩
  · subst h200
    rcases helper_cdr_obj_cases hwf with h1 | ⟨te, recs, h2⟩
    · exact ⟨_, h1, rfl, Or.inl rfl⟩
    · exact ⟨_, h2, rfl, Or.inr rfl⟩
  · subst h200
    rcases helper_network_attach_obj_cases lo hwf with h1 | ⟨ev, h2⟩ | ⟨te, recs, h3⟩
    · exact ⟨_, h1, rfl, Or.inl rfl⟩
    · exact ⟨_, h2, rfl, Or.inr rfl⟩
    · exact ⟨_, h3, rfl, Or.inr rfl⟩

/-- C2 witness at status 500 and at status 200 with an empty dict body. -/
theorem C2_witness :
    (helper_cdr_obj ⟨500, .obj []⟩ = .ok (.obj [("error", .str "API returned 500"),
      ("detail", .str "\x7b\x7d")]) ∧
     helper_network_attach_obj ⟨500, .obj []⟩ true = .ok (.obj [("error",
      .str "API returned 500"), ("detail", .str "\x7b\x7d")])) ∧
    (∃ j, helper_cdr_obj ⟨200, .obj []⟩ = .ok j ∧ j.get? "error" = none ∧
      (j.get? "status" = some (.str "inactive") ∨ j.get? "status" = some (.str "active"))) :=
  ⟨(C2_error_form_iff ⟨500, .obj []⟩ true).1 (by decide),
    (C2_error_form_iff ⟨200, .obj []⟩ true).2.1 rfl rfl⟩

/-- C1 counterexample: a data-session body whose equipment entry is tagged
IMEI but lacks the value key makes the normalizer raise `KeyError`, which
escapes to the caller. -/
theorem C1_counterexample :
    helper_data_session ⟨200, .obj [("sessions", .arr [.obj [("PS-Information",
      .obj [("User-Equipment-Info", .arr [.obj [("User-Equipment-Info-Type",
      .str "IMEI")]])])]])]⟩ = .error (.keyError "User-Equipment-Info-Value") := rfl

/-- C1 (amended): for every HTTP status and every schema-conformant JSON
body, each normalizer returns without exception, and its output is accepted
by the JSON grammar, hence independently parseable. -/
theorem C1_valid_json (st : Nat) (body : Json) (lo : Bool) :
    (wf_ds body = true → ∃ s, helper_data_session ⟨st, body⟩ = .ok s ∧ JsonText s.data) ∧
    (wf_cdr body = true → ∃ s, helper_cdr ⟨st, body⟩ = .ok s ∧ JsonText s.data) ∧
    (wf_na body = true → ∃ s, helper_network_attach ⟨st, body⟩ lo = .ok s ∧ JsonText s.data) := by
  refine ⟨fun h => ?_, fun h => ?_, fun h => ?_⟩
  · obtain ⟨j, hj⟩ := helper_data_session_obj_ok st h
    exact ⟨dumpsStr j, by unfold helper_data_session; rw [hj]; rfl, dumps_valid j⟩
  · obtain ⟨j, hj⟩ := helper_cdr_obj_ok st h
    exact ⟨dumpsStr j, by unfold helper_cdr; rw [hj]; rfl, dumps_valid j⟩
  · obtain ⟨j, hj⟩ := helper_network_attach_obj_ok st lo h
    exact ⟨dumpsStr j, by unfold helper_network_attach; rw [hj]; rfl, dumps_valid j⟩

/-- C1 witness at status 200 with an empty dict body for all three
normalizers. -/
theorem C1_witness :
    (∃ s, helper_data_session ⟨200, .obj []⟩ = .ok s ∧ JsonText s.data) ∧
    (∃ s, helper_cdr ⟨200, .obj []⟩ = .ok s ∧ JsonText s.data) ∧
    (∃ s, helper_network_attach ⟨200, .obj []⟩ true = .ok s ∧ JsonText s.data) :=
  ⟨(C1_valid_json 200 (.obj []) true).1 rfl, (C1_valid_json 200 (.obj []) true).2.1 rfl,
    (C1_valid_json 200 (.obj []) true).2.2 rfl⟩

/-- C3: in each normalizer, a non-empty string IMEI of length at least 8
yields a deviceTAC equal to exactly its first 8 characters, and an empty or
missing IMEI yields a null (absent) TAC. -/
theorem C3_tac_derivation (imei : String) (_h8 : 8 ≤ imei.length) (hne : imei ≠ "") :
    (helper_data_session_obj ⟨200, .obj [("sessions", .arr [.obj [("PS-Information",
        .obj [("User-Equipment-Info", .arr [.obj [("User-Equipment-Info-Type", .str "IMEI"),
        ("User-Equipment-Info-Value", .str imei)]])])]])]⟩ =
      .ok (.obj [("status", .str "active"), ("sessions", .arr [.obj [("startTime", .null),
        ("lastUpdateTime", .null), ("mcc-mnc", .null), ("apn", .null), ("ratType", .null),
        ("deviceTAC", .str (String.mk (imei.data.take 8)))]])])) ∧
    (helper_cdr_obj ⟨200, .obj [("totalElements", .num 1), ("content", .arr [.obj [("body",
        .obj [("dataSession", .obj [("imei", .str imei)])])]])]⟩ =
      .ok (.obj [("status", .str "active"), ("totalElements", .num 1), ("records", .arr
        [.obj [("eventDate", .null), ("apn", .null), ("originCountry", .null), ("mcc", .null),
          ("mnc", .null), ("ratType", .null), ("deviceTAC", .str (String.mk (imei.data.take 8))),
          ("requestType", .null), ("requestDate", .null), ("serviceOutcome", .null),
          ("usage", .obj [("uplink", .num 0), ("downlink", .num 0), ("total", .num 0)])]])])) ∧
    (helper_network_attach_obj ⟨200, .obj [("content", .arr [.obj [("body",
        .obj [("imei", .str imei)])]])]⟩ true =
      .ok (.obj [("status", .str "ok"), ("lastAttach", .obj [("eventDate", .null),
        ("eventType", .null), ("mcc", .null), ("mnc", .null), ("operatorName", .null),
        ("country", .null), ("deviceTAC", .str (String.mk (imei.data.take 8)))])])) ∧
    (find_imei_tac [.obj [("User-Equipment-Info-Type", .str "IMEI"),
        ("User-Equipment-Info-Value", .str "")]] = .ok .null) ∧
    (find_imei_tac [.obj [("User-Equipment-Info-Type", .str "GPSI")]] = .ok .null) ∧
    (cdr_tac (.obj [("imei", .str "")]) = .ok .null) ∧
    (cdr_tac (.obj []) = .ok .null) ∧
    (na_tac (.str "") = .ok .null) ∧
    (na_tac .null = .ok .null) := by
  have htr : (Json.str imei).truthy = true := by simp [Json.truthy, hne]
  refine ⟨?_, ?_, ?_, rfl, rfl, rfl, rfl, rfl, rfl⟩
  · simp [helper_data_session_obj, Response.json, parse_session, find_imei_tac, pyGet,
      pyGetItem, pyIter, pyEqStr, pySlice, mapE, List.lookup, htr]
  · simp [helper_cdr_obj, Response.json, parse_cdr_record, cdr_tac, pyGet, pyEqInt, pyIter,
      pySlice, mapE, pyToInt, List.lookup, htr]
  · simp [helper_network_attach_obj, Response.json, parse_event, na_tac, pyGet, pyIndex0,
      pySlice, Json.truthy, List.lookup, hne]

/-- C3 witness at a 15-digit IMEI. -/
theorem C3_witness :
    helper_data_session_obj ⟨200, .obj [("sessions", .arr [.obj [("PS-Information",
        .obj [("User-Equipment-Info", .arr [.obj [("User-Equipment-Info-Type", .str "IMEI"),
        ("User-Equipment-Info-Value", .str "490154203237518")]])])]])]⟩ =
      .ok (.obj [("status", .str "active"), ("sessions", .arr [.obj [("startTime", .null),
        ("lastUpdateTime", .null), ("mcc-mnc", .null), ("apn", .null), ("ratType", .null),
        ("deviceTAC", .str "49015420")]])]) :=
  (C3_tac_derivation "490154203237518" (by decide) (by decide)).1

/-- C6: at status 200 with non-empty content, last-only mode returns status
ok with lastAttach the per-event normalization of the first entry, and list
mode returns status ok with records the normalization of all entries in
order (totalElements taken from the payload, defaulting to the record
count). -/
theorem C6_attach_modes (kvs : List (String × Json)) (e : Json) (es : List Json)
    (E : Json) (Es : List Json)
    (hc : kvs.lookup "content" = some (.arr (e :: es)))
    (hE : parse_event e = .ok E)
    (hEs : mapE parse_event (e :: es) = .ok Es) :
    helper_network_attach_obj ⟨200, .obj kvs⟩ true =
      .ok (.obj [("status", .str "ok"), ("lastAttach", E)]) ∧
    helper_network_attach_obj ⟨200, .obj kvs⟩ false =
      .ok (.obj [("status", .str "ok"),
        ("totalElements", (kvs.lookup "totalElements").getD (.num (Int.ofNat Es.length))),
        ("records", .arr Es)]) := by
  constructor
  · unfold helper_network_attach_obj
    simp only [Response.json, bne_self_eq_false, Bool.false_eq_true, if_false, pyGet_obj,
      py_bind_ok, hc, Option.getD_some, Json.truthy, List.isEmpty_cons, Bool.not_false,
      Bool.true_eq_false, if_true, pyIndex0]
    rw [hE]
    rfl
  · unfold helper_network_attach_obj
    simp only [Response.json, bne_self_eq_false, Bool.false_eq_true, if_false, pyGet_obj,
      py_bind_ok, hc, Option.getD_some, Json.truthy, List.isEmpty_cons, Bool.not_false,
      Bool.true_eq_false, if_true, pyIter]
    rw [hEs]
    rfl

/-- C6 witness at a single concrete attach event. -/
theorem C6_witness :
    helper_network_attach_obj ⟨200, .obj [("totalElements", .num 1), ("content", .arr
      [.obj [("header", .obj [("eventDate", .str "2025-06-01")]), ("body",
        .obj [("imei", .str "490154203237518")])]])]⟩ true =
      .ok (.obj [("status", .str "ok"), ("lastAttach", .obj [("eventDate", .str "2025-06-01"),
        ("eventType", .null), ("mcc", .null), ("mnc", .null), ("operatorName", .null),
        ("country", .null), ("deviceTAC", .str "49015420")])]) :=
  (C6_attach_modes [("totalElements", .num 1), ("content", .arr
    [.obj [("header", .obj [("eventDate", .str "2025-06-01")]), ("body",
      .obj [("imei", .str "490154203237518")])]])]
    (.obj [("header", .obj [("eventDate", .str "2025-06-01")]), ("body",
      .obj [("imei", .str "490154203237518")])]) [] _ _ rfl rfl rfl).1

/-- C7: when the SIM search returns zero matches the attach-history handler
returns the serialized error object (no exception escapes), and with one or
more matches it queries attach history with the first simSerial. -/
theorem C7_sim_lookup (skvs : List (String × Json)) (att : Json → Response) (imsi : String)
    (lo : Bool) (st : Nat) (hst : ¬(400 ≤ st ∧ st < 600)) :
    ((skvs.lookup "sims" = none ∨ skvs.lookup "sims" = some (.arr [])) →
      get_network_attach ⟨st, .obj skvs⟩ att imsi lo =
        .ok (dumpsStr (.obj [("error", .str ("No SIM found for IMSI " ++ imsi))]))) ∧
    (∀ swkvs rest serial, skvs.lookup "sims" = some (.arr (.obj swkvs :: rest)) →
      swkvs.lookup "simSerial" = some serial →
      get_network_attach ⟨st, .obj skvs⟩ att imsi lo = helper_network_attach (att serial) lo) := by
  constructor
  · intro hs
    unfold get_network_attach
    rw [get_sim_serial_empty imsi hst hs]
    rfl
  · intro swkvs rest serial hs hser
    unfold get_network_attach
    rw [get_sim_serial_first imsi hst hs hser]
    simp only [py_bind_ok]
    cases hx : helper_network_attach (att serial) lo with
    | ok s => rfl
    | error e =>
      cases e <;> first
        | rfl
        | exact absurd hx (noVE_helper_network_attach (att serial) lo _)

/-- C7 witness: zero SIM matches yield the exact error string. -/
theorem C7_witness :
    get_network_attach ⟨200, .obj [("sims", .arr [])]⟩ (fun _ => ⟨200, .obj []⟩)
      "001010123456789" false =
      .ok "\x7b\"error\": \"No SIM found for IMSI 001010123456789\"\x7d" :=
  (C7_sim_lookup [("sims", .arr [])] (fun _ => ⟨200, .obj []⟩) "001010123456789" false 200
    (by omega)).1 (Or.inr rfl)

/-- C8 counterexample: a 304 response is not a success (non-2xx) yet
`gen_token` does not raise; it returns the access token. -/
theorem C8_counterexample :
    gen_token (fun _ => .ok ⟨304, .obj [("access_token", .str "tok")]⟩) = .ok (.str "tok") ∧
    ¬(200 ≤ 304 ∧ 304 ≤ 299) :=
  ⟨rfl, by omega⟩

/-- C8 (amended): `gen_token` raises `RuntimeError` exactly when the single
POST attempt errors or times out, or returns a 4xx/5xx status; it consults
only the first attempt (no retry), and on success returns the access_token
field of the response body. -/
theorem C8_gen_token (att : Nat → Except ReqErr Response) :
    ((∃ e, att 0 = .error e) → ∃ m, gen_token att = .error (.runtimeError m)) ∧
    (∀ r, att 0 = .ok r → 400 ≤ r.status → r.status < 600 →
      ∃ m, gen_token att = .error (.runtimeError m)) ∧
    (∀ r, att 0 = .ok r → ¬(400 ≤ r.status ∧ r.status < 600) →
      gen_token att = pyGetItem r.body "access_token") ∧
    (∀ r kvs tok, att 0 = .ok r → ¬(400 ≤ r.status ∧ r.status < 600) → r.body = .obj kvs →
      kvs.lookup "access_token" = some tok → gen_token att = .ok tok) ∧
    (∀ r, att 0 = .ok r → ¬(400 ≤ r.status ∧ r.status < 600) →
      ∀ m, gen_token att ≠ .error (.runtimeError m)) ∧
    (∀ b : Nat → Except ReqErr Response, att 0 = b 0 → gen_token att = gen_token b) := by
  have hbase : ∀ r, att 0 = .ok r → ¬(400 ≤ r.status ∧ r.status < 600) →
      gen_token att = pyGetItem r.body "access_token" := by
    intro r hr hst
    unfold gen_token
    rw [hr]
    exact if_neg hst
  refine ⟨?_, ?_, hbase, ?_, ?_, ?_⟩
  · rintro ⟨e, he⟩
    refine ⟨"Failed to generate token", ?_⟩
    unfold gen_token
    rw [he]
  · intro r hr h4 h6
    refine ⟨"Failed to generate token", ?_⟩
    unfold gen_token
    rw [hr]
    exact if_pos ⟨h4, h6⟩
  · intro r kvs tok hr hst hb hl
    rw [hbase r hr hst, hb]
    simp [pyGetItem, hl]
  · intro r hr hst m
    rw [hbase r hr hst]
    intro hc
    cases hb : r.body <;> rw [hb] at hc <;> simp [pyGetItem] at hc
    case obj kvs =>
      cases hl : kvs.lookup "access_token" <;> rw [hl] at hc <;> simp at hc
  · intro b hab
    unfold gen_token
    rw [hab]

/-- C8 witness at a successful 200 token exchange. -/
theorem C8_witness :
    gen_token (fun _ => .ok ⟨200, .obj [("access_token", .str "tok")]⟩) = .ok (.str "tok") :=
  (C8_gen_token _).2.2.2.1 ⟨200, .obj [("access_token", .str "tok")]⟩
    [("access_token", .str "tok")] (.str "tok") rfl (by decide) rfl rfl

/-- C9: normalized CDR usage counters are the integer coercion of the
upstream fields, defaulting to zero when absent; in particular the string
"1048576" coerces to the integer 1048576. -/
theorem C9_usage_coercion (u v w : Json) (a b c : Int)
    (hu : pyToInt u = .ok a) (hv : pyToInt v = .ok b) (hw : pyToInt w = .ok c) :
    helper_cdr_obj ⟨200, .obj [("totalElements", .num 1), ("content", .arr [.obj [("body",
      .obj [("dataSession", .obj [("usage", .obj [("uplink", u), ("downlink", v),
      ("total", w)])])])]])]⟩ =
    .ok (.obj [("status", .str "active"), ("totalElements", .num 1), ("records", .arr
      [.obj [("eventDate", .null), ("apn", .null), ("originCountry", .null), ("mcc", .null),
        ("mnc", .null), ("ratType", .null), ("deviceTAC", .null), ("requestType", .null),
        ("requestDate", .null), ("serviceOutcome", .null),
        ("usage", .obj [("uplink", .num a), ("downlink", .num b), ("total", .num c)])]])]) ∧
    pyToInt (.str "1048576") = .ok 1048576 ∧
    helper_cdr_obj ⟨200, .obj [("totalElements", .num 1), ("content", .arr [.obj []])]⟩ =
    .ok (.obj [("status", .str "active"), ("totalElements", .num 1), ("records", .arr
      [.obj [("eventDate", .null), ("apn", .null), ("originCountry", .null), ("mcc", .null),
        ("mnc", .null), ("ratType", .null), ("deviceTAC", .null), ("requestType", .null),
        ("requestDate", .null), ("serviceOutcome", .null),
        ("usage", .obj [("uplink", .num 0), ("downlink", .num 0), ("total", .num 0)])]])]) := by
  refine ⟨?_, rfl, rfl⟩
  simp [helper_cdr_obj, Response.json, parse_cdr_record, cdr_tac, pyGet, pyEqInt, pyIter,
    mapE, List.lookup, Json.truthy, hu, hv, hw]

/-- C9 witness: a usage entry with total "1048576" normalizes to the
integer 1048576. -/
theorem C9_witness :
    helper_cdr_obj ⟨200, .obj [("totalElements", .num 1), ("content", .arr [.obj [("body",
      .obj [("dataSession", .obj [("usage", .obj [("uplink", .num 7), ("downlink", .num 9),
      ("total", .str "1048576")])])])]])]⟩ =
    .ok (.obj [("status", .str "active"), ("totalElements", .num 1), ("records", .arr
      [.obj [("eventDate", .null), ("apn", .null), ("originCountry", .null), ("mcc", .null),
        ("mnc", .null), ("ratType", .null), ("deviceTAC", .null), ("requestType", .null),
        ("requestDate", .null), ("serviceOutcome", .null),
        ("usage", .obj [("uplink", .num 7), ("downlink", .num 9),
          ("total", .num 1048576)])]])]) :=
  (C9_usage_coercion (.num 7) (.num 9) (.str "1048576") 7 9 1048576 rfl rfl rfl).1
